import Mathlib

/-!
Verification of the `<solar-portfolio>` web component (src/unnamed/part_000).

The component renders a portfolio item list either as an interactive 3D
constellation scene or as a static grid, with an overlay detail card.
This file gives a shallow embedding of its data model and the pure and
stateful logic the claims concern, translated directly from the source:

* rendering-mode resolution (`SolarPortfolio.render`, `renderGrid`);
* the loader result mapping (`SolarPortfolio.load`);
* the grid / scene render pipelines (`renderGrid`,
  `ConstellationScene.createThumbnails`, `createLabels`);
* the detail-overlay state machine (`showCard`, `hideCard`, the captured
  `keyHandler`), including the document-level keydown listener list;
* scene teardown (`ConstellationScene.destroy`);
* the host selection state (`activeIndex`) across loads.

DOM side effects are modelled as explicit state records; the asynchronous
`load` is modelled as an interleaved event trace (a request begins, and its
response later completes and runs the continuation after the `await`).
-/

namespace SolarPortfolio

/-- `PortfolioItem` from the source: one portfolio entry of the JSON document. -/
structure PortfolioItem where
  id : String
  title : String
  description : String
  image : String
  tags : List String
  url : String
deriving DecidableEq, Repr

/-! ### Capability detection and rendering-mode resolution

`isWebGLAvailable` and `prefersReducedMotion` probe the browser at render
time; we model their results as booleans supplied to `render`.  The
`variant` getter is `this.getAttribute("variant") || "constellation"`:
a missing attribute, and also the empty string (falsy in JS), default to
`"constellation"`. -/

/-- The resolved `variant` getter: `getAttribute("variant") || "constellation"`. -/
def variantOf (attr : Option String) : String :=
  match attr with
  | none => "constellation"
  | some s => if s = "" then "constellation" else s

/-- Outcome of `SolarPortfolio.render`: either the static grid (with the two
possible fallback notices as rendered by `renderGrid`) or the immersive
constellation scene. -/
inductive RenderOutcome where
  | grid (webglNotice : Bool) (reducedMotionNotice : Bool)
  | constellation
deriving DecidableEq, Repr

/-- Whether the outcome is the grid layout. -/
def RenderOutcome.isGrid : RenderOutcome → Bool
  | .grid _ _ => true
  | .constellation => false

/-- Whether a "WebGL is unavailable" notice is rendered. -/
def RenderOutcome.hasWebglNotice : RenderOutcome → Bool
  | .grid w _ => w
  | .constellation => false

/-- `SolarPortfolio.render`: `useGrid` is
`variant === "grid" || prefersReducedMotion() || !isWebGLAvailable()`;
the grid branch calls `renderGrid(!isWebGLAvailable() && variant !== "grid")`,
and `renderGrid` itself adds a reduced-motion notice when
`prefersReducedMotion() && variant !== "grid"`. -/
def render (variant : String) (reducedMotion webglAvailable : Bool) : RenderOutcome :=
  let useGrid := variant == "grid" || reducedMotion || !webglAvailable
  if useGrid then
    .grid (!webglAvailable && !(variant == "grid"))
          (reducedMotion && !(variant == "grid"))
  else
    .constellation

/-! ### Loader (`SolarPortfolio.load`, fetch/parse section)

`load` awaits `fetch(jsonUrl)`; `resp.ok` is true exactly for HTTP status
200–299.  On `!resp.ok` it throws, on `resp.json()` rejection the parse
fails; both are caught and render the "Failed to load portfolio data."
notice and return (nothing is rendered besides the notice, and no
exception escapes `load`).  On success `this.items = data.items || []`
and `render()` runs. -/

/-- Body of a fetch response: either JSON that fails to parse, or a parsed
document whose `items` field may be absent. -/
inductive JsonBody where
  | malformed
  | doc (items : Option (List PortfolioItem))
deriving DecidableEq, Repr

/-- Result of the awaited `fetch`: a network-level rejection, or a response
with an HTTP status and a body. -/
inductive FetchOutcome where
  | networkError
  | response (status : Nat) (body : JsonBody)
deriving DecidableEq, Repr

/-- What `load` leaves in the container: the "No data-json attribute" notice,
the "Failed to load portfolio data." notice, or the rendered item list. -/
inductive LoadOutcome where
  | noDataUrl
  | failedNotice
  | rendered (items : List PortfolioItem)
deriving DecidableEq, Repr

/-- `resp.ok`: HTTP status in the range 200–299. -/
def respOk (status : Nat) : Bool := 200 ≤ status && status ≤ 299

/-- `SolarPortfolio.load`, from the `data-json` check through the
try/catch: missing URL renders the no-data notice; a rejected fetch, a
non-ok status (`throw new Error`) or a parse failure all land in the
`catch` and render the failure notice; success stores `data.items || []`. -/
def load (jsonUrl : Option String) (fetch : FetchOutcome) : LoadOutcome :=
  match jsonUrl with
  | none => .noDataUrl
  | some _ =>
    match fetch with
    | .networkError => .failedNotice
    | .response status body =>
      if respOk status then
        match body with
        | .malformed => .failedNotice
        | .doc items => .rendered (items.getD [])
      else
        .failedNotice

/-- Number of portfolio items rendered by the outcome of `load`
(the notice branches replace the container content, so zero items). -/
def LoadOutcome.renderedItemCount : LoadOutcome → Nat
  | .noDataUrl => 0
  | .failedNotice => 0
  | .rendered items => items.length

/-! ### Overlapping loads

`load` is `async`: its synchronous prefix clears the container and issues
the fetch, and the continuation after `await` applies the response to
`this.items` (or renders the failure notice).  There is no generation
counter and no request cancellation, so the continuation runs whenever its
response arrives, regardless of any load started in between.  A trace of
interleaved loads is a list of begin/finish events over the shared
`this.items` state. -/

/-- One interleaving step of possibly-overlapping `load` invocations:
`begin r` is the synchronous prefix of the `r`-th invocation (issues the
fetch); `finish r f` is its continuation running when response `f`
arrives. -/
inductive LoadEvent where
  | begin (req : Nat)
  | finish (req : Nat) (outcome : FetchOutcome)
deriving DecidableEq, Repr

/-- Effect of one event on `this.items`: the synchronous prefix does not
touch `items`; a completing response stores `data.items || []` on success
and leaves `items` unchanged on the caught failure paths.  Mirroring the
source, a finishing continuation applies unconditionally — nothing checks
whether a newer load has started since. -/
def applyLoadEvent (items : List PortfolioItem) : LoadEvent → List PortfolioItem
  | .begin _ => items
  | .finish _ f =>
    match f with
    | .networkError => items
    | .response status body =>
      if respOk status then
        match body with
        | .malformed => items
        | .doc newItems => newItems.getD []
      else
        items

/-- `this.items` after a trace of interleaved load events. -/
def runLoadEvents (events : List LoadEvent) (items : List PortfolioItem) :
    List PortfolioItem :=
  events.foldl applyLoadEvent items

/-! ### Render pipelines

`renderGrid` iterates `this.items.forEach((item, i) => ...)`, appending one
card per item in order; each card gets `aria-label` = the item's title and a
click/keydown activation calling `showCard(i)`.
`ConstellationScene.createThumbnails` iterates the items in order, placing
one mesh per item at `spread[i % spread.length]` with `userData = { index: i }`;
`createLabels` appends one label button per item with text = the item's
title and a click listener calling `onItemClick(i)`. -/

/-- `forEach` with its index argument: applies `f` to each element together
with its running index, starting from `i`. -/
def mapIdxFrom (f : Nat → α → β) (i : Nat) : List α → List β
  | [] => []
  | a :: as => f i a :: mapIdxFrom f (i + 1) as

/-- One grid card as produced by `renderGrid`: its position in the grid,
its accessible label (the item's title) and the index its activation
handlers pass to `showCard`. -/
structure GridCard where
  ariaLabel : String
  clickIndex : Nat
deriving DecidableEq, Repr

/-- The card list built by `renderGrid`'s `items.forEach((item, i) => ...)`. -/
def renderGridCards (items : List PortfolioItem) : List GridCard :=
  mapIdxFrom (fun i item => { ariaLabel := item.title, clickIndex := i }) 0 items

/-- A 3D point, with coordinates as exact rationals (the layout table holds
decimal literals; no arithmetic is performed on them before assignment). -/
abbrev Vec3 := ℚ × ℚ × ℚ

/-- The fixed 10-entry layout table `spread` of `createThumbnails`. -/
def spread : List Vec3 :=
  [ (-18/10,  8/10, -15/10),
    ( -5/10, 10/10,   8/10),
    (  8/10,  9/10,  -8/10),
    ( 19/10,  6/10,  12/10),
    (-16/10, -2/10,  10/10),
    ( -4/10,  1/10, -12/10),
    (  6/10, -3/10,  15/10),
    ( 17/10, -1/10,  -5/10),
    (-10/10, -9/10,  -3/10),
    ( 11/10, -8/10,   6/10) ]

/-- `spread[i % spread.length]`: the base position assigned to index `i`. -/
def spreadPos (i : Nat) : Vec3 := spread.getD (i % spread.length) (0, 0, 0)

/-- One thumbnail mesh as produced by `createThumbnails`: its
`userData.index` and the base position it is placed at. -/
structure ThumbnailMesh where
  index : Nat
  basePos : Vec3
deriving DecidableEq, Repr

/-- The mesh list built by `createThumbnails`'s
`this.items.forEach((item, i) => ...)`; the base position depends only on
the running index. -/
def createThumbnails (items : List PortfolioItem) : List ThumbnailMesh :=
  mapIdxFrom (fun i _ => { index := i, basePos := spreadPos i }) 0 items

/-- One overlay label as produced by `createLabels`: its text (the item's
title), its `aria-label`, and the index its click listener reports through
`onItemClick`. -/
structure SceneLabel where
  text : String
  ariaLabel : String
  clickIndex : Nat
deriving DecidableEq, Repr

/-- The label list built by `createLabels`'s
`this.items.forEach((item, i) => ...)`. -/
def createLabels (items : List PortfolioItem) : List SceneLabel :=
  mapIdxFrom
    (fun i item =>
      { text := item.title, ariaLabel := "View " ++ item.title, clickIndex := i })
    0 items

/-- `handleCanvasClick`, after the ray cast: given the intersection list
returned by `raycaster.intersectObjects(this.thumbnailMeshes)` (nearest
first), reports the first hit's `userData.index`, or nothing when there is
no hit. -/
def canvasClickIndex (hits : List ThumbnailMesh) : Option Nat :=
  hits.head?.map (·.index)

/-! ### Detail overlay state machine

`showCard(index)` assigns `this.activeIndex = index` *before* checking
that the item exists, renders the previous/next controls according to
`hasPrev = index > 0` and `hasNext = index < this.items.length - 1`
(JavaScript signed arithmetic), registers a fresh `keyHandler` closure on
`document` and overwrites the cleanup reference `overlay._keyHandler`
with it.  `hideCard` clears `activeIndex`, empties the overlay and removes
only the listener currently stored in `overlay._keyHandler`.  The captured
`keyHandler` dismisses on Escape and navigates on ArrowLeft/ArrowRight
when the captured `hasPrev`/`hasNext` allow it.

Each registered closure is a distinct object; we model identity with an
id drawn from a running counter, so `removeEventListener` removes exactly
the stored closure. -/

/-- `index > 0` as computed by `showCard`. -/
def hasPrev (index : Nat) : Bool := decide (0 < index)

/-- `index < this.items.length - 1` as computed by `showCard`
(JavaScript arithmetic: the subtraction is signed, so an empty list gives
`index < -1`, false). -/
def hasNext (index len : Nat) : Bool := decide ((index : Int) < (len : Int) - 1)

/-- One `keyHandler` closure: its identity and the `index`, `hasPrev`,
`hasNext` values it captured when `showCard` created it. -/
structure KeyHandler where
  hid : Nat
  index : Nat
  hasPrev : Bool
  hasNext : Bool
deriving DecidableEq, Repr

/-- Host/overlay state: the loaded items, the host's `activeIndex`, the
fresh-closure counter, the document-level keydown listener list (in
registration order), the overlay's `_keyHandler` cleanup reference, and
which overlay controls are rendered. -/
structure OverlayState where
  items : List PortfolioItem
  activeIndex : Option Nat
  nextId : Nat
  docListeners : List KeyHandler
  stored : Option KeyHandler
  overlayActive : Bool
  overlayPrevShown : Bool
  overlayNextShown : Bool
deriving DecidableEq, Repr

/-- The state right after a render: no selection, no listeners, inactive
overlay. -/
def overlayInit (items : List PortfolioItem) : OverlayState :=
  { items := items, activeIndex := none, nextId := 0, docListeners := [],
    stored := none, overlayActive := false, overlayPrevShown := false,
    overlayNextShown := false }

/-- `SolarPortfolio.showCard(index)`: `activeIndex` is assigned first; if
the item is missing the method returns there (overlay untouched);
otherwise the overlay is re-rendered with the boundary-dependent controls,
a fresh `keyHandler` is added to `document`, and the `_keyHandler`
reference is overwritten — the previously stored closure, if any, is
*not* removed. -/
def showCard (index : Nat) (s : OverlayState) : OverlayState :=
  if index < s.items.length then
    { s with
      activeIndex := some index,
      overlayActive := true,
      overlayPrevShown := hasPrev index,
      overlayNextShown := hasNext index s.items.length,
      docListeners := s.docListeners ++
        [⟨s.nextId, index, hasPrev index, hasNext index s.items.length⟩],
      stored := some ⟨s.nextId, index, hasPrev index,
        hasNext index s.items.length⟩,
      nextId := s.nextId + 1 }
  else
    { s with activeIndex := some index }

/-- `SolarPortfolio.hideCard`: clears `activeIndex`, empties the overlay,
and removes from `document` exactly the closure stored in `_keyHandler`
(if any), then deletes the reference. -/
def hideCard (s : OverlayState) : OverlayState :=
  match s.stored with
  | some h =>
    { s with activeIndex := none, overlayActive := false,
             overlayPrevShown := false, overlayNextShown := false,
             docListeners := s.docListeners.filter (fun g => g.hid ≠ h.hid),
             stored := none }
  | none =>
    { s with activeIndex := none, overlayActive := false,
             overlayPrevShown := false, overlayNextShown := false }

/-- The keyboard keys the captured `keyHandler` distinguishes. -/
inductive Key where
  | escape
  | arrowLeft
  | arrowRight
  | other
deriving DecidableEq, Repr

/-- The body of one captured `keyHandler`: Escape dismisses; ArrowLeft /
ArrowRight re-open the adjacent index only when the captured `hasPrev` /
`hasNext` flag allows it. -/
def fireHandler (h : KeyHandler) (k : Key) (s : OverlayState) : OverlayState :=
  match k with
  | .escape => hideCard s
  | .arrowLeft => if h.hasPrev then showCard (h.index - 1) s else s
  | .arrowRight => if h.hasNext then showCard (h.index + 1) s else s
  | .other => s

/-- A document keydown dispatch: the listener list is snapshotted, each
listener runs in registration order, and a listener removed by an earlier
one in the same dispatch no longer runs (DOM semantics); listeners added
during the dispatch do not run for this event. -/
def keydown (k : Key) (s : OverlayState) : OverlayState :=
  s.docListeners.foldl
    (fun acc h =>
      if acc.docListeners.any (fun g => g.hid = h.hid) then fireHandler h k acc
      else acc)
    s

/-- The success path of a re-invoked `load` as it affects the host state:
`this.items` is replaced and `render()` rebuilds the container, so the old
overlay element (and with it the `_keyHandler` reference and any rendered
controls) is discarded — but `this.activeIndex` is never reassigned, and
the document-level listeners are untouched. -/
def reloadSuccess (newItems : List PortfolioItem) (s : OverlayState) :
    OverlayState :=
  { s with items := newItems, stored := none, overlayActive := false,
           overlayPrevShown := false, overlayNextShown := false }

/-! ### Scene teardown (`ConstellationScene.destroy`)

`destroy` cancels the pending animation frame, removes the window resize
listener and the canvas click listener, disposes the renderer, disposes
every thumbnail mesh's geometry and material, disposes every texture that
finished loading (`t?.dispose()` — entries still `null` are skipped), and
disposes the star field's geometry and material.  Disposal of an
already-disposed resource, cancelling an already-cancelled frame and
removing an already-removed listener are no-ops. -/

/-- Disposal state of one mesh's GPU resources. -/
structure MeshResources where
  geometryDisposed : Bool
  materialDisposed : Bool
deriving DecidableEq, Repr

/-- Resource state of one `ConstellationScene` instance.  A texture entry
is `none` while `this.textures[i]` is still `null` (image not yet loaded)
and `some b` once loaded, `b` recording disposal. -/
structure SceneState where
  animPending : Bool
  resizeListenerAttached : Bool
  clickListenerAttached : Bool
  rendererDisposed : Bool
  meshes : List MeshResources
  textures : List (Option Bool)
  stars : Option MeshResources
deriving DecidableEq, Repr

/-- `ConstellationScene.destroy`, statement by statement:
`cancelAnimationFrame`, the two `removeEventListener`s,
`renderer.dispose()`, per-mesh geometry/material disposal, disposal of
each loaded texture, and star-field disposal when `this.stars` is set. -/
def destroy (s : SceneState) : SceneState :=
  { animPending := false,
    resizeListenerAttached := false,
    clickListenerAttached := false,
    rendererDisposed := true,
    meshes := s.meshes.map (fun _ => ⟨true, true⟩),
    textures := s.textures.map (Option.map (fun _ => true)),
    stars := s.stars.map (fun _ => ⟨true, true⟩) }

/-- Sample item, matching the spec's example document. -/
def sampleItem : PortfolioItem :=
  { id := "a", title := "A", description := "d", image := "i.png",
    tags := ["x"], url := "u" }

/-- A second, distinct sample item. -/
def sampleItem2 : PortfolioItem :=
  { id := "b", title := "B", description := "e", image := "j.png",
    tags := ["y"], url := "v" }

/-- A three-item document. -/
def items3 : List PortfolioItem := List.replicate 3 sampleItem

/-- A freshly constructed scene over `n` items, none of whose textures
have loaded yet: everything live, nothing disposed. -/
def sceneFresh (n : Nat) : SceneState :=
  { animPending := true, resizeListenerAttached := true,
    clickListenerAttached := true, rendererDisposed := false,
    meshes := List.replicate n ⟨false, false⟩,
    textures := List.replicate n none,
    stars := some ⟨false, false⟩ }

end SolarPortfolio

namespace SolarPortfolio

/-! ### Helper lemmas -/

theorem mapIdxFrom_length (f : Nat → α → β) (i : Nat) (l : List α) :
    (mapIdxFrom f i l).length = l.length := by
  induction l generalizing i with
  | nil => rfl
  | cons a as ih => simp [mapIdxFrom, ih]

theorem mapIdxFrom_getElem? (f : Nat → α → β) (i j : Nat) (l : List α) :
    (mapIdxFrom f i l)[j]? = (l[j]?).map (f (i + j)) := by
  induction l generalizing i j with
  | nil => simp [mapIdxFrom]
  | cons a as ih =>
    cases j with
    | zero => simp [mapIdxFrom]
    | succ j =>
      simp only [mapIdxFrom, List.getElem?_cons_succ, ih]
      have : i + 1 + j = i + (j + 1) := by omega
      rw [this]

theorem mem_mapIdxFrom (f : Nat → α → β) (i : Nat) (l : List α) (b : β)
    (hb : b ∈ mapIdxFrom f i l) :
    ∃ j, ∃ hj : j < l.length, b = f (i + j) (l.get ⟨j, hj⟩) := by
  induction l generalizing i with
  | nil => simp [mapIdxFrom] at hb
  | cons a as ih =>
    simp only [mapIdxFrom, List.mem_cons] at hb
    rcases hb with h | h
    · exact ⟨0, by simp, by simpa using h⟩
    · rcases ih (i + 1) h with ⟨j, hj, hbe⟩
      have hnat : i + (j + 1) = i + 1 + j := by omega
      exact ⟨j + 1, Nat.succ_lt_succ hj, by rw [hnat]; exact hbe⟩

theorem mapIdxFrom_indep (g : Nat → β) (l l' : List α) (i : Nat)
    (h : l.length = l'.length) :
    mapIdxFrom (fun j _ => g j) i l = mapIdxFrom (fun j _ => g j) i l' := by
  induction l generalizing l' i with
  | nil =>
    cases l' with
    | nil => rfl
    | cons b bs => simp at h
  | cons a as ih =>
    cases l' with
    | nil => simp at h
    | cons b bs =>
      simp only [List.length_cons, Nat.succ.injEq] at h
      simp [mapIdxFrom, ih bs (i + 1) h]

theorem spreadPos_cycle (i : Nat) : spreadPos (i + 10) = spreadPos i := by
  unfold spreadPos
  have h : spread.length = 10 := rfl
  rw [h, Nat.add_mod_right]

theorem option_map_true_idem (l : List (Option Bool)) :
    (l.map (Option.map fun _ => true)).map (Option.map fun _ => true) =
      l.map (Option.map fun _ => true) := by
  induction l with
  | nil => rfl
  | cons a as ih => cases a <;> simp [ih]

/-! ### Claim theorems -/

/-- C1: Rendering mode resolution.  For every requested mode attribute,
reduced-motion preference and WebGL availability, `render` resolves to the
grid iff reduced motion is preferred, or the resolved mode is `"grid"`, or
WebGL is unavailable; otherwise to the constellation scene; and when the
deciding cause is WebGL unavailability with requested mode
`"constellation"` (reduced motion off, mode not `"grid"`), the grid carries
the "WebGL unavailable" notice. -/
theorem render_mode_resolution (attr : Option String) (rm wg : Bool) :
    ((render (variantOf attr) rm wg).isGrid = true ↔
      (rm = true ∨ variantOf attr = "grid" ∨ wg = false)) ∧
    (rm = false → wg = false → variantOf attr = "constellation" →
      render (variantOf attr) rm wg = .grid true false) := by
  constructor
  · constructor
    · intro h
      by_cases hv : variantOf attr = "grid"
      · exact Or.inr (Or.inl hv)
      · cases rm with
        | true => exact Or.inl rfl
        | false =>
          cases wg with
          | false => exact Or.inr (Or.inr rfl)
          | true =>
            exfalso
            simp only [render, RenderOutcome.isGrid] at h
            rw [if_neg] at h
            · exact Bool.noConfusion h
            · simp [hv]
    · intro h
      rcases h with h | h | h
      · subst h; simp [render, RenderOutcome.isGrid]
      · simp [render, RenderOutcome.isGrid, h]
      · subst h; simp [render, RenderOutcome.isGrid]
  · intro hrm hwg hv
    subst hrm; subst hwg
    rw [hv]
    rfl

/-- Witness for `render_mode_resolution`: reduced motion off, WebGL
unavailable, attribute absent (resolved mode `"constellation"`) yields the
grid with the WebGL-unavailable notice. -/
theorem render_mode_resolution_witness :
    render (variantOf none) false false = .grid true false ∧
    (render (variantOf none) false false).isGrid = true :=
  ⟨(render_mode_resolution none false false).2 rfl rfl rfl,
   ((render_mode_resolution none false false).1).2 (Or.inr (Or.inr rfl))⟩

/-- C6: Loader result mapping.  A non-success HTTP status or a JSON parse
failure produces the failed-to-load notice with zero rendered items (the
error is caught inside `load`, never thrown to the caller), while a
successful response whose document lacks the `items` field yields the
empty item list, not an error. -/
theorem load_result_mapping (url : String) (status : Nat) (body : JsonBody) :
    (respOk status = false →
      load (some url) (.response status body) = .failedNotice ∧
      (load (some url) (.response status body)).renderedItemCount = 0) ∧
    (respOk status = true →
      load (some url) (.response status .malformed) = .failedNotice ∧
      (load (some url) (.response status .malformed)).renderedItemCount = 0) ∧
    (respOk status = true →
      load (some url) (.response status (.doc none)) = .rendered []) := by
  refine ⟨fun h => ?_, fun h => ?_, fun h => ?_⟩
  · simp [load, h, LoadOutcome.renderedItemCount]
  · simp [load, h, LoadOutcome.renderedItemCount]
  · simp [load, h]

/-- Witness for `load_result_mapping`: HTTP 404 gives the failure notice
and zero items; HTTP 200 with a document lacking `items` gives the empty
list. -/
theorem load_result_mapping_witness :
    load (some "portfolio.json") (.response 404 (.doc (some []))) = .failedNotice ∧
    load (some "portfolio.json") (.response 200 (.doc none)) = .rendered [] :=
  ⟨((load_result_mapping "portfolio.json" 404 (.doc (some []))).1 rfl).1,
   (load_result_mapping "portfolio.json" 200 (.doc (some []))).2.2 rfl⟩

/-- C7: Render cardinality and order.  Grid mode renders exactly one card
per item, scene mode exactly one mesh and one label per item, and the
`i`-th card/mesh/label corresponds to the `i`-th item of the source
document (title, `aria-label`, bound index). -/
theorem render_cardinality_order (items : List PortfolioItem) :
    (renderGridCards items).length = items.length ∧
    (createThumbnails items).length = items.length ∧
    (createLabels items).length = items.length ∧
    (∀ (i : Nat) (item : PortfolioItem), items[i]? = some item →
      (renderGridCards items)[i]? =
        some ({ ariaLabel := item.title, clickIndex := i } : GridCard) ∧
      (createThumbnails items)[i]? =
        some ({ index := i, basePos := spreadPos i } : ThumbnailMesh) ∧
      (createLabels items)[i]? =
        some ({ text := item.title, ariaLabel := "View " ++ item.title,
                clickIndex := i } : SceneLabel)) := by
  refine ⟨mapIdxFrom_length _ _ _, mapIdxFrom_length _ _ _,
         mapIdxFrom_length _ _ _, ?_⟩
  intro i item h
  refine ⟨?_, ?_, ?_⟩ <;>
    simp [renderGridCards, createThumbnails, createLabels,
          mapIdxFrom_getElem?, h]

/-- Witness for `render_cardinality_order`: the one-item document renders
one card with accessible label "A", one mesh with index 0 and one label
with text "A". -/
theorem render_cardinality_order_witness :
    (renderGridCards [sampleItem]).length = 1 ∧
    (renderGridCards [sampleItem])[0]? =
      some { ariaLabel := "A", clickIndex := 0 } ∧
    (createLabels [sampleItem])[0]? =
      some { text := "A", ariaLabel := "View A", clickIndex := 0 } := by
  have h := render_cardinality_order [sampleItem]
  have h0 := h.2.2.2 0 sampleItem rfl
  exact ⟨h.1, h0.1, h0.2.2⟩

/-- C9: Cyclic base layout.  The base position of the mesh at index `i` is
entry `i % 10` of the fixed 10-entry `spread` table; positions repeat
cyclically past 10 items; and the assignment depends only on the index and
the list length, never on item content. -/
theorem cyclic_base_layout (items items' : List PortfolioItem) (i : Nat) :
    (i < items.length →
      ((createThumbnails items)[i]?).map ThumbnailMesh.basePos =
        some (spread.getD (i % 10) (0, 0, 0))) ∧
    spreadPos (i + 10) = spreadPos i ∧
    (items.length = items'.length →
      createThumbnails items = createThumbnails items') := by
  refine ⟨fun hi => ?_, spreadPos_cycle i, fun hlen => ?_⟩
  · have h : items[i]? = some (items.get ⟨i, hi⟩) := List.getElem?_eq_getElem hi
    have hten : spread.length = 10 := rfl
    simp [createThumbnails, mapIdxFrom_getElem?, h, spreadPos, hten]
  · unfold createThumbnails
    exact mapIdxFrom_indep
      (fun j => ({ index := j, basePos := spreadPos j } : ThumbnailMesh))
      items items' 0 hlen

/-- Witness for `cyclic_base_layout`: with 11 identical items, the 11th
mesh (index 10) sits at table entry 0, the same base position as the first
mesh. -/
theorem cyclic_base_layout_witness :
    ((createThumbnails (List.replicate 11 sampleItem))[10]?).map
        ThumbnailMesh.basePos = some (spread.getD 0 (0, 0, 0)) ∧
    spreadPos 10 = spreadPos 0 := by
  constructor
  · have h := (cyclic_base_layout (List.replicate 11 sampleItem) [] 10).1
      (by simp)
    simpa using h
  · exact (cyclic_base_layout [] [] 0).2.1

/-- C10: Every index delivered through the scene's selection callback is a
valid index into the item list: each constructed mesh's `userData.index`
and each label's bound index is below the item count, and a canvas click
resolved by ray casting against the thumbnail meshes therefore reports a
valid index. -/
theorem selection_callback_index_valid (items : List PortfolioItem)
    (hits : List ThumbnailMesh) (idx : Nat) :
    (∀ m ∈ createThumbnails items, m.index < items.length) ∧
    (∀ l ∈ createLabels items, l.clickIndex < items.length) ∧
    ((∀ h ∈ hits, h ∈ createThumbnails items) →
      canvasClickIndex hits = some idx → idx < items.length) := by
  have hmesh : ∀ m ∈ createThumbnails items, m.index < items.length := by
    intro m hm
    rcases mem_mapIdxFrom _ _ _ _ hm with ⟨j, hj, hbe⟩
    subst hbe
    simpa using hj
  refine ⟨hmesh, ?_, ?_⟩
  · intro l hl
    rcases mem_mapIdxFrom _ _ _ _ hl with ⟨j, hj, hbe⟩
    subst hbe
    simpa using hj
  · intro hsub hclick
    cases hits with
    | nil => simp [canvasClickIndex] at hclick
    | cons h t =>
      simp only [canvasClickIndex, List.head?_cons, Option.map_some',
        Option.some.injEq] at hclick
      subst hclick
      exact hmesh h (hsub h (List.mem_cons_self h t))

/-- Witness for `selection_callback_index_valid`: with the one-item list
and the ray cast hitting its only mesh, the delivered index 0 is valid. -/
theorem selection_callback_index_valid_witness :
    canvasClickIndex (createThumbnails [sampleItem]) = some 0 ∧
    (0 : Nat) < ([sampleItem] : List PortfolioItem).length := by
  refine ⟨rfl, ?_⟩
  exact (selection_callback_index_valid [sampleItem]
    (createThumbnails [sampleItem]) 0).2.2 (fun h hh => hh) rfl

/-- C5: Detail overlay boundary behavior.  For every non-empty item list,
opening at index 0 renders no previous control and opening at the last
index renders no next control; a left-arrow keydown at index 0 and a
right-arrow keydown at the last index leave the selected index unchanged
(no wraparound). -/
theorem detail_overlay_boundaries (items : List PortfolioItem)
    (h : 0 < items.length) :
    (showCard 0 (overlayInit items)).overlayPrevShown = false ∧
    (showCard (items.length - 1) (overlayInit items)).overlayNextShown = false ∧
    (keydown .arrowLeft (showCard 0 (overlayInit items))).activeIndex =
      some 0 ∧
    (keydown .arrowRight (showCard (items.length - 1)
        (overlayInit items))).activeIndex = some (items.length - 1) := by
  have hlast : items.length - 1 < items.length := by omega
  have hprev0 : hasPrev 0 = false := rfl
  have hnextlast : hasNext (items.length - 1) items.length = false := by
    unfold hasNext
    simp only [decide_eq_false_iff_not, not_lt]
    omega
  refine ⟨?_, ?_, ?_, ?_⟩
  · simp [showCard, overlayInit, h, hprev0]
  · simp [showCard, overlayInit, hlast, hnextlast]
  · simp [keydown, showCard, overlayInit, h, fireHandler, hprev0]
  · simp [keydown, showCard, overlayInit, hlast, fireHandler, hnextlast]

/-- Witness for `detail_overlay_boundaries`: the three-item document. -/
theorem detail_overlay_boundaries_witness :
    (showCard 0 (overlayInit items3)).overlayPrevShown = false ∧
    (showCard (items3.length - 1) (overlayInit items3)).overlayNextShown =
      false ∧
    (keydown .arrowLeft (showCard 0 (overlayInit items3))).activeIndex =
      some 0 ∧
    (keydown .arrowRight (showCard (items3.length - 1)
        (overlayInit items3))).activeIndex = some (items3.length - 1) :=
  detail_overlay_boundaries items3 (by decide)

/-- C2 evaluated at its failing input: opening the overlay at index 0 over
three items and pressing ArrowRight (navigating to index 1) leaves *two*
keydown listeners registered on the document — `showCard` overwrites the
`_keyHandler` reference without removing the previously registered
closure — and after an Escape dismissal one stale listener still remains.
This refutes the claim that exactly one dismissal listener exists at any
time and that it is removed exactly on dismissal or supersession. -/
theorem keydown_listener_accumulation :
    (keydown .arrowRight (showCard 0 (overlayInit items3))).docListeners.length
      = 2 ∧
    (keydown .escape
        (keydown .arrowRight (showCard 0 (overlayInit items3)))).docListeners.length
      = 1 :=
  ⟨rfl, rfl⟩

/-- C3 evaluated at its failing input: select index 2 of a three-item
document, then re-load a one-item document.  `load` never reassigns
`this.activeIndex`, so the selection survives the re-load (it is not
cleared to none) and is now out of range for the freshly loaded list. -/
theorem reload_keeps_stale_selection :
    (reloadSuccess [sampleItem]
        (showCard 2 (overlayInit items3))).activeIndex = some 2 ∧
    (reloadSuccess [sampleItem]
        (showCard 2 (overlayInit items3))).items.length = 1 :=
  ⟨rfl, rfl⟩

/-- C4 evaluated at its failing input: load 1 starts, load 2 starts, load
2's response (document B) arrives and is applied, then load 1's slow
response (document A) arrives.  `load` has no generation counter or
cancellation, so the stale continuation overwrites the newer state: the
final items are document A's, not the newest request's document B. -/
theorem stale_response_overwrites :
    runLoadEvents
      [ .begin 1, .begin 2,
        .finish 2 (.response 200 (.doc (some [sampleItem2]))),
        .finish 1 (.response 200 (.doc (some [sampleItem]))) ] []
      = [sampleItem] ∧
    [sampleItem] ≠ [sampleItem2] := by
  exact ⟨rfl, by decide⟩

/-- C8: Scene teardown.  `destroy` cancels the animation loop, removes the
resize and click listeners, disposes the renderer, every per-item geometry
and material, every loaded texture, and the star field's resources; and
destroying the same instance a second time is a no-op (the state reached
by the first `destroy` is a fixed point, with no fault). -/
theorem scene_destroy (s : SceneState) :
    (destroy s).animPending = false ∧
    (destroy s).resizeListenerAttached = false ∧
    (destroy s).clickListenerAttached = false ∧
    (destroy s).rendererDisposed = true ∧
    (∀ m ∈ (destroy s).meshes,
      m.geometryDisposed = true ∧ m.materialDisposed = true) ∧
    (∀ t ∈ (destroy s).textures, ∀ b ∈ t, b = true) ∧
    (∀ st, (destroy s).stars = some st →
      st.geometryDisposed = true ∧ st.materialDisposed = true) ∧
    destroy (destroy s) = destroy s := by
  refine ⟨rfl, rfl, rfl, rfl, ?_, ?_, ?_, ?_⟩
  · intro m hm
    rcases List.mem_map.mp hm with ⟨a, _, h⟩
    exact ⟨congrArg MeshResources.geometryDisposed h.symm,
           congrArg MeshResources.materialDisposed h.symm⟩
  · intro t ht
    rcases List.mem_map.mp ht with ⟨a, _, rfl⟩
    intro b hb
    cases a with
    | none => simp at hb
    | some c => simpa using hb.symm
  · intro st h
    cases hs : s.stars with
    | none => simp [destroy, hs] at h
    | some x =>
      simp only [destroy, hs, Option.map_some', Option.some.injEq] at h
      rw [← h]
      exact ⟨rfl, rfl⟩
  · have htex := option_map_true_idem s.textures
    have hstars : Option.map (fun _ => (⟨true, true⟩ : MeshResources))
        (Option.map (fun _ => (⟨true, true⟩ : MeshResources)) s.stars) =
        Option.map (fun _ => (⟨true, true⟩ : MeshResources)) s.stars := by
      cases s.stars <;> rfl
    have hmesh : List.map (fun _ => (⟨true, true⟩ : MeshResources))
        (List.map (fun _ => (⟨true, true⟩ : MeshResources)) s.meshes) =
        List.map (fun _ => (⟨true, true⟩ : MeshResources)) s.meshes := by
      rw [List.map_map]
      rfl
    simp only [destroy, htex, hstars, hmesh]

/-- Witness for `scene_destroy`: a freshly built one-item scene; its only
mesh's resources are disposed, the star field is disposed, and a second
`destroy` changes nothing. -/
theorem scene_destroy_witness :
    (destroy (sceneFresh 1)).animPending = false ∧
    ((⟨true, true⟩ : MeshResources).geometryDisposed = true ∧
      (⟨true, true⟩ : MeshResources).materialDisposed = true) ∧
    destroy (destroy (sceneFresh 1)) = destroy (sceneFresh 1) := by
  have h := scene_destroy (sceneFresh 1)
  have hm : (⟨true, true⟩ : MeshResources) ∈ (destroy (sceneFresh 1)).meshes := by
    decide
  exact ⟨h.1, h.2.2.2.2.1 ⟨true, true⟩ hm, h.2.2.2.2.2.2.2⟩

end SolarPortfolio
